import Mathlib

/-!
Verification of the near-Earth-object models (`src/models.py`) and extraction
helpers (`src/extract.py`) of the repository.

Numeric values are modelled exactly: the only float values arising in this
code are decimal-literal parse results, `0.0` defaults, and the sentinels
`nan`/`inf`, so a float is modelled as an exact scaled decimal (an integer
numerator over a power-of-ten denominator) or one of the three non-finite
sentinels.  The representation is not normalized; no claim ever compares
two differently-constructed numeric values, only a stored value against the
value a record was built from.  Python truthiness of a float (`0.0` is
falsy, `nan` and `inf` are truthy) is modelled by `PFloat.truthy`.

Calendar timestamps are modelled by `Datetime`; Python's `datetime` type
guarantees `1 <= year <= 9999`, which the structure records so that the
fixed four-digit rendering of `strftime "%Y"` is faithful on the whole type.
-/

/-- Model of a Python float value as it occurs in this program: an exact
rational, or one of the non-finite sentinels produced by `float('nan')` /
`float('inf')`. -/
inductive PFloat where
  | nan
  | inf
  | ninf
  | val (num : Int) (den : Nat)
deriving DecidableEq, Repr

/-- Python truthiness of a float: `0.0` is falsy, every other float
(including `nan` and `inf`) is truthy. -/
def PFloat.truthy : PFloat → Bool
  | .val num _ => num != 0
  | _ => true

/-- Python exception classes raised by the modelled code paths. -/
inductive PyErr where
  | valueError
  | attributeError
  | indexError
deriving DecidableEq, Repr

/-- Numeric value of a list of decimal digit characters, most significant
first (the usual positional reading used by `float`/`int` parsing). -/
def digitsToNat (cs : List Char) : Nat :=
  cs.foldl (fun a c => a * 10 + (c.toNat - 48)) 0

/-- Model of the decimal part of CPython's `float(str)` parse on an already
sign-stripped character list: integer digits, optional fraction, optional
exponent; at least one digit is required.  The exact value is returned as a
numerator together with a power-of-ten denominator.  Exotic accepted forms
(digit group underscores) are omitted; no claim depends on them. -/
def parseUnsigned (cs : List Char) : Option (Nat × Nat) :=
  let p := cs.span Char.isDigit
  let ip := p.1
  let q := match p.2 with
    | '.' :: r => r.span Char.isDigit
    | _ => ([], p.2)
  let fp := q.1
  if ip.isEmpty && fp.isEmpty then none
  else
    let mantissa := digitsToNat (ip ++ fp)
    let scale := 10 ^ fp.length
    match q.2 with
    | [] => some (mantissa, scale)
    | e :: r =>
      if e == 'e' || e == 'E' then
        let sr : Bool × List Char := match r with
          | '+' :: r2 => (false, r2)
          | '-' :: r2 => (true, r2)
          | _ => (false, r)
        let ed := sr.2.span Char.isDigit
        if ed.1.isEmpty || !ed.2.isEmpty then none
        else
          let ex := digitsToNat ed.1
          some (if sr.1 then (mantissa, scale * 10 ^ ex) else (mantissa * 10 ^ ex, scale))
      else none

/-- Model of CPython's `float(str)` parse: strip surrounding whitespace, an
optional sign, then either the case-insensitive words `nan`/`inf`/`infinity`
or a decimal literal.  Returns `none` where CPython raises `ValueError`. -/
def parsePyFloat (s : String) : Option PFloat :=
  let cs0 := s.toList.dropWhile Char.isWhitespace
  let cs := (cs0.reverse.dropWhile Char.isWhitespace).reverse
  let sr : Bool × List Char := match cs with
    | '+' :: r => (false, r)
    | '-' :: r => (true, r)
    | _ => (false, cs)
  let lower := sr.2.map Char.toLower
  if lower = ['n', 'a', 'n'] then some .nan
  else if lower = ['i', 'n', 'f'] || lower = ['i', 'n', 'f', 'i', 'n', 'i', 't', 'y'] then
    some (if sr.1 then .ninf else .inf)
  else
    match parseUnsigned sr.2 with
    | some md => some (.val (if sr.1 then -(md.1 : Int) else (md.1 : Int)) md.2)
    | none => none

/-- Argument to Python's `float(...)` builtin as used by this program: either
a string to be parsed or an already-numeric float. -/
inductive PyNum where
  | str (s : String)
  | num (x : PFloat)
deriving DecidableEq, Repr

/-- Model of the `float(...)` builtin on this program's argument domain:
identity on floats, parse on strings, `ValueError` on parse failure. -/
def pyFloat : PyNum → Except PyErr PFloat
  | .num x => .ok x
  | .str s =>
    match parsePyFloat s with
    | some x => .ok x
    | none => .error .valueError

/-- Model of a Python `datetime` at the precision this program uses
(minutes; the source data has no seconds).  The `year_lt` field records
Python's `datetime` invariant `year <= 9999` (MAXYEAR), which makes the
fixed four-digit `%Y` rendering below faithful on every value of this
type. -/
structure Datetime where
  year : Nat
  month : Nat
  day : Nat
  hour : Nat
  minute : Nat
  year_lt : year < 10000

/-- Two-digit zero-padded decimal rendering (strftime `%m`, `%d`, `%H`,
`%M`; all in-range field values are below 100). -/
def fmt2 (n : Nat) : List Char :=
  [Nat.digitChar (n / 10 % 10), Nat.digitChar (n % 10)]

/-- Four-digit zero-padded decimal rendering (strftime `%Y`; `Datetime`
years are below 10000). -/
def fmt4 (n : Nat) : List Char :=
  [Nat.digitChar (n / 1000 % 10), Nat.digitChar (n / 100 % 10),
   Nat.digitChar (n / 10 % 10), Nat.digitChar (n % 10)]

/-- Model of the stdlib call `self.time.strftime("%Y-%m-%d %H:%M")` used by
`CloseApproach.serialize` in `src/models.py`. -/
def strftimeYmdHM (t : Datetime) : String :=
  String.mk (fmt4 t.year ++ ('-' :: fmt2 t.month) ++ ('-' :: fmt2 t.day) ++
    (' ' :: fmt2 t.hour) ++ (':' :: fmt2 t.minute))

/-- Modelled from the spec: `helpers.datetime_to_str` is imported by
`src/models.py` but `helpers.py` is not under `src/`; spec section 6 fixes
its output to exactly the `"YYYY-MM-DD HH:MM"` string of the timestamp. -/
def datetime_to_str (t : Datetime) : String :=
  strftimeYmdHM t

/-- Check a character list against a list of per-position character
predicates; the lengths must agree exactly. -/
def checkPat : List (Char → Bool) → List Char → Bool
  | [], [] => true
  | p :: ps, c :: cs => p c && checkPat ps cs
  | _, _ => false

/-- The claims' `"YYYY-MM-DD HH:MM"` pattern: exactly sixteen characters,
digits in the date/time positions, literal separators in between. -/
def isTimestampPattern (s : String) : Bool :=
  checkPat
    [Char.isDigit, Char.isDigit, Char.isDigit, Char.isDigit, (· == '-'),
     Char.isDigit, Char.isDigit, (· == '-'), Char.isDigit, Char.isDigit,
     (· == ' '), Char.isDigit, Char.isDigit, (· == ':'), Char.isDigit,
     Char.isDigit] s.toList

theorem digitChar_mod_isDigit (n : Nat) : (Nat.digitChar (n % 10)).isDigit = true := by
  have h : n % 10 < 10 := Nat.mod_lt _ (by omega)
  have hall : ∀ m, m < 10 → (Nat.digitChar m).isDigit = true := by decide
  exact hall _ h

theorem strftimeYmdHM_matches (t : Datetime) :
    isTimestampPattern (strftimeYmdHM t) = true := by
  simp [isTimestampPattern, strftimeYmdHM, fmt4, fmt2, checkPat, String.toList,
    digitChar_mod_isDigit]

/-- Scalar data of a `NearEarthObject` (`src/models.py`): optional
designation and name (empty strings were normalized to `None` by the
constructor), diameter float, and the hazardous flag as given to the
constructor (`None` when absent, hence `Option Bool`). -/
structure NeoData where
  designation : Option String
  name : Option String
  diameter : PFloat
  hazardous : Option Bool
deriving DecidableEq, Repr

/-- A `CloseApproach` object state (`src/models.py`): the raw foreign-key
designation, the optional parsed time, distance and velocity floats, and
the optional reference to the linked NEO's data.  Python-falsy `time`
values (`None`, and the unparsed empty string which the constructor leaves
in place) are collapsed to `none`: every modelled code path guards `time`
by truthiness, so they are indistinguishable here. -/
structure CloseApproach where
  _designation : String
  time : Option Datetime
  distance : PFloat
  velocity : PFloat
  neo : Option NeoData

/-- A full `NearEarthObject`: its scalar data plus the collection of linked
approaches (initially empty, populated later by the database linker). -/
structure NearEarthObject extends NeoData where
  approaches : List CloseApproach

/-- Model of `NearEarthObject.__init__` (`src/models.py` lines 36-54):
normalizes empty-string designation/name to `None`, coerces the diameter
through `float(...)` catching `ValueError` into the `nan` sentinel, stores
the hazardous flag as given, and starts with no linked approaches. -/
def neoInit (designation name : Option String) (diameter : PyNum)
    (hazardous : Option Bool) : NearEarthObject :=
  { designation := if designation = some "" then none else designation
    name := if name = some "" then none else name
    diameter :=
      match pyFloat diameter with
      | .ok x => x
      | .error _ => PFloat.nan
    hazardous := hazardous
    approaches := [] }

/-- Modelled from the spec: `helpers.cd_to_datetime` is imported by
`src/models.py` but `helpers.py` is not under `src/`; spec section 6 fixes
its input format to `"YYYY-Mon-DD HH:MM"` (e.g. `"1900-Jan-01 12:00"`), and
`datetime.strptime` raises `ValueError` on mismatch.  Day/hour/minute range
validation is elided; no claim depends on it. -/
def monthNum (cs : List Char) : Option Nat :=
  if cs = ['J', 'a', 'n'] then some 1
  else if cs = ['F', 'e', 'b'] then some 2
  else if cs = ['M', 'a', 'r'] then some 3
  else if cs = ['A', 'p', 'r'] then some 4
  else if cs = ['M', 'a', 'y'] then some 5
  else if cs = ['J', 'u', 'n'] then some 6
  else if cs = ['J', 'u', 'l'] then some 7
  else if cs = ['A', 'u', 'g'] then some 8
  else if cs = ['S', 'e', 'p'] then some 9
  else if cs = ['O', 'c', 't'] then some 10
  else if cs = ['N', 'o', 'v'] then some 11
  else if cs = ['D', 'e', 'c'] then some 12
  else none

/-- Modelled from the spec: the pure part of `helpers.cd_to_datetime`,
parsing the compact timestamp string `"YYYY-Mon-DD HH:MM"` (see
`monthNum`); `none` on any format mismatch. -/
def cdParse (s : String) : Option Datetime :=
  match s.toList with
  | [y1, y2, y3, y4, '-', m1, m2, m3, '-', d1, d2, ' ', h1, h2, ':', n1, n2] =>
    if [y1, y2, y3, y4, d1, d2, h1, h2, n1, n2].all Char.isDigit then
      match monthNum [m1, m2, m3] with
      | some mo =>
        let y := digitsToNat [y1, y2, y3, y4]
        if h : y < 10000 then
          some ⟨y, mo, digitsToNat [d1, d2], digitsToNat [h1, h2],
            digitsToNat [n1, n2], h⟩
        else none
      | none => none
    else none
  | _ => none

/-- Modelled from the spec: `helpers.cd_to_datetime` parses the compact
timestamp string into a calendar timestamp; `datetime.strptime` raises
`ValueError` on mismatch. -/
def cd_to_datetime (s : String) : Except PyErr Datetime :=
  match cdParse s with
  | some d => .ok d
  | none => .error .valueError

/-- Keyword arguments delivered to `CloseApproach.__init__` via `**info`
(`none` models a missing key, so the `info.get` defaults apply). -/
structure CAInputs where
  designation : Option String
  time : Option String
  distance : Option PyNum
  velocity : Option PyNum

/-- Time handling of `CloseApproach.__init__` (`src/models.py` lines
101-103): a truthy time string is parsed by `cd_to_datetime` (whose
`ValueError` escapes); a falsy one — absent or the empty string — is kept
unparsed, which this model collapses to `none`. -/
def caTimeStep (time : Option String) : Except PyErr (Option Datetime) :=
  match time with
  | none => .ok none
  | some s =>
    if s = "" then .ok none
    else
      match cd_to_datetime s with
      | .ok d => .ok (some d)
      | .error e => .error e

/-- Model of `CloseApproach.__init__` (`src/models.py` lines 95-108):
designation defaults to `''`; the time is handled by `caTimeStep`; distance
and velocity are passed through `float(...)` with a default of `0.0`,
letting any `ValueError` escape (the explicit error branches model Python
exception propagation); the NEO reference starts absent. -/
def caInit (info : CAInputs) : Except PyErr CloseApproach :=
  match caTimeStep info.time with
  | .error e => .error e
  | .ok t =>
    match pyFloat (info.distance.getD (.num (.val 0 1))) with
    | .error e => .error e
    | .ok dist =>
      match pyFloat (info.velocity.getD (.num (.val 0 1))) with
      | .error e => .error e
      | .ok vel =>
        .ok { _designation := info.designation.getD ""
              time := t
              distance := dist
              velocity := vel
              neo := none }

/-- Python `x or ''` on an optional string (`None` and `''` are falsy, so
both collapse to `''`). -/
def pyOrEmpty (o : Option String) : String :=
  match o with
  | none => ""
  | some s => s

/-- Python `x or float('nan')` on a float: `0.0` is replaced by `nan`,
every truthy float (including `nan` itself) is kept. -/
def pyOrNanF (x : PFloat) : PFloat :=
  if x.truthy then x else .nan

/-- A Python value as it appears in the serialized record dictionaries. -/
inductive PyVal where
  | str (s : String)
  | float (x : PFloat)
  | pybool (b : Bool)
  | pynone
deriving DecidableEq, Repr

/-- The hazardous attribute as placed in a record: `None` or a bool. -/
def pyObj (o : Option Bool) : PyVal :=
  match o with
  | none => .pynone
  | some b => .pybool b

/-- Model of `NearEarthObject.serialize` (`src/models.py` lines 72-78):
the returned dict, as an ordered key/value list. -/
def NeoData.serialize (n : NeoData) : List (String × PyVal) :=
  [("designation", .str (pyOrEmpty n.designation)),
   ("name", .str (pyOrEmpty n.name)),
   ("diameter_km", .float (pyOrNanF n.diameter)),
   ("potentially_hazardous", pyObj n.hazardous)]

/-- Model of `CloseApproach.serialize` (`src/models.py` lines 140-145):
`self.time.strftime(...)` raises `AttributeError` when `time` is not a
datetime (absent), otherwise the dict of formatted time and or-guarded
distance and velocity is returned. -/
def CloseApproach.serialize (ca : CloseApproach) : Except PyErr (List (String × PyVal)) :=
  match ca.time with
  | none => .error .attributeError
  | some t =>
    .ok [("datetime_utc", .str (strftimeYmdHM t)),
         ("distance_au", .float (pyOrNanF ca.distance)),
         ("velocity_km_s", .float (pyOrNanF ca.velocity))]

/-- Python string interpolation of an optional string: `str(None)` is the
text `"None"`. -/
def pyStrOfOpt (o : Option String) : String :=
  match o with
  | none => "None"
  | some s => s

/-- Model of the `CloseApproach.time_str` property (`src/models.py` lines
110-129): empty string for a falsy time; otherwise `'Time '` plus the
formatted time, with the linked NEO's name and designation appended when
the reference is set. -/
def CloseApproach.time_str (ca : CloseApproach) : String :=
  match ca.time with
  | none => ""
  | some t =>
    let rv := "Time " ++ datetime_to_str t
    match ca.neo with
    | none => rv
    | some n => rv ++ "Name " ++ pyStrOfOpt n.name ++ " Designation " ++ pyStrOfOpt n.designation

/-- Model of the per-row body of `load_neos` (`src/extract.py` lines 21-33):
a CSV row is a list of string fields; the constructor receives
`designation=row[3]`, `name=row[4]`, `hazardous=(row[7] == 'Y')`,
`diameter=row[15]`; a too-short row raises `IndexError`. -/
def loadNeoRow (row : List String) : Except PyErr NearEarthObject :=
  if h : 15 < row.length then
    .ok (neoInit (some (row.get ⟨3, by omega⟩)) (some (row.get ⟨4, by omega⟩))
      (.str (row.get ⟨15, h⟩)) (some (row.get ⟨7, by omega⟩ == "Y")))
  else .error .indexError

theorem pyFloat_error (n : PyNum) (e : PyErr) (h : pyFloat n = .error e) :
    e = .valueError := by
  unfold pyFloat at h
  repeat' split at h
  all_goals simp_all

theorem cd_to_datetime_error (s : String) (e : PyErr)
    (h : cd_to_datetime s = .error e) : e = .valueError := by
  unfold cd_to_datetime at h
  repeat' split at h
  all_goals simp_all

theorem caTimeStep_error (tm : Option String) (e : PyErr)
    (h : caTimeStep tm = .error e) : e = .valueError := by
  cases tm with
  | none => simp [caTimeStep] at h
  | some s =>
    simp only [caTimeStep] at h
    by_cases hs : s = ""
    · rw [if_pos hs] at h
      simp at h
    · rw [if_neg hs] at h
      cases hc : cd_to_datetime s with
      | ok d => rw [hc] at h; simp at h
      | error e2 =>
        rw [hc] at h
        injection h with h1
        exact h1.symm.trans (cd_to_datetime_error s e2 hc)

/-- C9: `CloseApproach.serialize` formats `self.time` unguarded, so with an
absent time it raises (`AttributeError`) instead of returning a record. -/
theorem claim_C9 (ca : CloseApproach) (h : ca.time = none) :
    ca.serialize = .error .attributeError := by
  unfold CloseApproach.serialize
  rw [h]

theorem claim_C9_witness :
    CloseApproach.serialize
      { _designation := "433", time := none, distance := .val 0 1,
        velocity := .val 0 1, neo := none } = .error .attributeError :=
  claim_C9 _ rfl

/-- C10: the `time_str` property returns the empty string, without raising,
whenever the approach time is absent, whether or not a NEO is linked. -/
theorem claim_C10 (ca : CloseApproach) (h : ca.time = none) :
    ca.time_str = "" := by
  unfold CloseApproach.time_str
  rw [h]

theorem claim_C10_witness :
    CloseApproach.time_str
      { _designation := "433", time := none, distance := .val 1 1,
        velocity := .val 1 1,
        neo := some { designation := some "433",
                      name := some "Eros",
                      diameter := .val 1684 100,
                      hazardous := some false } } = "" :=
  claim_C10 _ rfl

/-- C8: a freshly constructed NEO has an empty approaches collection, and a
freshly constructed CloseApproach has an absent NEO reference. -/
theorem claim_C8 :
    (∀ (d nm : Option String) (dia : PyNum) (hz : Option Bool),
      (neoInit d nm dia hz).approaches = []) ∧
    (∀ (info : CAInputs) (ca : CloseApproach),
      caInit info = .ok ca → ca.neo = none) := by
  constructor
  · intro d nm dia hz
    rfl
  · intro info ca hok
    unfold caInit at hok
    repeat' split at hok
    all_goals simp_all
    rw [← hok]

theorem claim_C8_witness :
    (neoInit (some "433") (some "Eros") (.str "16.84") (some false)).approaches = [] ∧
    ∃ ca, caInit { designation := some "433", time := none,
                   distance := none, velocity := none } = .ok ca ∧
      ca.neo = none :=
  ⟨claim_C8.1 _ _ _ _,
   { _designation := "433", time := none, distance := .val 0 1,
     velocity := .val 0 1, neo := none }, rfl,
   claim_C8.2 { designation := some "433", time := none,
                distance := none, velocity := none } _ rfl⟩

/-- C7: the hazardous value the NEO record loader passes to the constructor
is `True` exactly when the single-character flag field `row[7]` is `"Y"`;
any other flag value yields `False`. -/
theorem claim_C7 (row : List String) (h : 15 < row.length)
    (neo : NearEarthObject) (hok : loadNeoRow row = .ok neo) :
    (neo.hazardous = some true ↔ row.get ⟨7, by omega⟩ = "Y") ∧
    (neo.hazardous = some false ↔ row.get ⟨7, by omega⟩ ≠ "Y") := by
  unfold loadNeoRow at hok
  rw [dif_pos h] at hok
  cases hok
  constructor
  · simp [neoInit]
  · simp [neoInit]

theorem claim_C7_witness :
    ({ designation := some "433", name := some "Eros", diameter := .nan,
       hazardous := some true, approaches := [] } : NearEarthObject).hazardous
      = some true :=
  ((claim_C7 ["id", "x", "y", "433", "Eros", "a", "b", "Y", "c", "d", "e",
      "f", "g", "h", "i", ""] (by decide) _ rfl).1).mpr rfl

/-- C5: the NEO constructor normalizes an empty-string designation or name
to absent, coerces the diameter to a float substituting the NaN sentinel on
parse failure (it is a total function — never raising on its input
domain), and stores the hazardous flag exactly as given, preserving
absence. -/
theorem claim_C5 (d nm : Option String) (dia : PyNum) (hz : Option Bool) :
    ((neoInit d nm dia hz).designation = none ↔ (d = none ∨ d = some "")) ∧
    (∀ s, s ≠ "" → ((neoInit d nm dia hz).designation = some s ↔ d = some s)) ∧
    ((neoInit d nm dia hz).name = none ↔ (nm = none ∨ nm = some "")) ∧
    (∀ s, s ≠ "" → ((neoInit d nm dia hz).name = some s ↔ nm = some s)) ∧
    (∀ s x, dia = .str s → parsePyFloat s = some x →
      (neoInit d nm dia hz).diameter = x) ∧
    (∀ s, dia = .str s → parsePyFloat s = none →
      (neoInit d nm dia hz).diameter = .nan) ∧
    (∀ x, dia = .num x → (neoInit d nm dia hz).diameter = x) ∧
    (neoInit d nm dia hz).hazardous = hz := by
  refine ⟨?_, ?_, ?_, ?_, ?_, ?_, ?_, rfl⟩
  · by_cases hd : d = some "" <;> simp [neoInit, hd]
  · intro s hs
    by_cases hd : d = some ""
    · simp [neoInit, hd]
      exact fun h => hs h.symm
    · simp [neoInit, hd]
  · by_cases hn : nm = some "" <;> simp [neoInit, hn]
  · intro s hs
    by_cases hn : nm = some ""
    · simp [neoInit, hn]
      exact fun h => hs h.symm
    · simp [neoInit, hn]
  · intro s x h1 h2
    subst h1
    simp [neoInit, pyFloat, h2]
  · intro s h1 h2
    subst h1
    simp [neoInit, pyFloat, h2]
  · intro x h1
    subst h1
    rfl

theorem claim_C5_witness :
    (neoInit (some "") (some "") (.str "xyz") none).designation = none ∧
    (neoInit (some "") (some "") (.str "xyz") none).name = none ∧
    (neoInit (some "") (some "") (.str "xyz") none).diameter = .nan ∧
    (neoInit (some "") (some "") (.str "xyz") none).hazardous = none :=
  ⟨((claim_C5 (some "") (some "") (.str "xyz") none).1).mpr (Or.inr rfl),
   ((claim_C5 (some "") (some "") (.str "xyz") none).2.2.1).mpr (Or.inr rfl),
   (claim_C5 (some "") (some "") (.str "xyz") none).2.2.2.2.2.1 "xyz" rfl rfl,
   (claim_C5 (some "") (some "") (.str "xyz") none).2.2.2.2.2.2.2⟩

/-- C6: the CloseApproach constructor defaults an absent distance or
velocity to `0.0`, while a malformed (unparsable) distance or velocity
string makes construction fail with a `ValueError`-class error rather than
being silently defaulted. -/
theorem claim_C6 (info : CAInputs) :
    (∀ ca, caInit info = .ok ca →
      (info.distance = none → ca.distance = .val 0 1) ∧
      (info.velocity = none → ca.velocity = .val 0 1)) ∧
    (∀ s, info.distance = some (.str s) → parsePyFloat s = none →
      caInit info = .error .valueError) ∧
    (∀ s, info.velocity = some (.str s) → parsePyFloat s = none →
      caInit info = .error .valueError) := by
  refine ⟨?_, ?_, ?_⟩
  · intro ca hok
    unfold caInit at hok
    cases ht : caTimeStep info.time with
    | error e => rw [ht] at hok; simp at hok
    | ok t =>
      rw [ht] at hok
      cases hd : pyFloat (info.distance.getD (.num (.val 0 1))) with
      | error e => rw [hd] at hok; simp at hok
      | ok dist =>
        rw [hd] at hok
        cases hv : pyFloat (info.velocity.getD (.num (.val 0 1))) with
        | error e => rw [hv] at hok; simp at hok
        | ok vel =>
          rw [hv] at hok
          injection hok with h1
          subst h1
          constructor
          · intro hdn
            rw [hdn] at hd
            simp [pyFloat] at hd
            simp [hd]
          · intro hvn
            rw [hvn] at hv
            simp [pyFloat] at hv
            simp [hv]
  · intro s hds hp
    cases ht : caTimeStep info.time with
    | error e => simp [caInit, ht, caTimeStep_error _ _ ht]
    | ok t => simp [caInit, ht, hds, pyFloat, hp]
  · intro s hvs hp
    cases ht : caTimeStep info.time with
    | error e => simp [caInit, ht, caTimeStep_error _ _ ht]
    | ok t =>
      cases hd : pyFloat (info.distance.getD (.num (.val 0 1))) with
      | error e => simp [caInit, ht, hd, pyFloat_error _ _ hd]
      | ok dist =>
        unfold caInit
        rw [ht, hd, hvs]
        simp [pyFloat, hp]

theorem claim_C6_witness :
    caInit { designation := none, time := none,
             distance := some (.str "oops"), velocity := none }
      = .error .valueError ∧
    ({ _designation := "", time := none, distance := .val 0 1,
       velocity := .val 0 1, neo := none } : CloseApproach).distance = .val 0 1 :=
  ⟨(claim_C6 { designation := none, time := none,
               distance := some (.str "oops"), velocity := none }).2.1 "oops" rfl rfl,
   ((claim_C6 { designation := none, time := none,
                distance := none, velocity := none }).1
      { _designation := "", time := none, distance := .val 0 1,
        velocity := .val 0 1, neo := none } rfl).1 rfl⟩

/-- Counterexample to C1 as stated: a CloseApproach with present time and
distance 0.0 serializes its distance field as NaN, not as the original 0.0
(the code guards the value with a Python `or float('nan')`). -/
theorem claim_C1_counterexample :
    (CloseApproach.serialize
      { _designation := "433", time := some ⟨2020, 1, 1, 0, 0, by decide⟩,
        distance := .val 0 1, velocity := .val 16 1, neo := none }).map
      (List.lookup "distance_au")
      = .ok (some (.float .nan)) ∧
    PFloat.nan ≠ PFloat.val 0 1 :=
  ⟨rfl, by decide⟩

/-- C1 (amended): for every CloseApproach with a present time, serializing
it and re-reading the distance and velocity fields yields the original
values whenever those values are nonzero (Python-truthy); a 0.0 distance or
velocity is instead emitted as NaN; and the datetime field always matches
the exact "YYYY-MM-DD HH:MM" pattern. -/
theorem claim_C1 (ca : CloseApproach) (t : Datetime) (h : ca.time = some t)
    (hd : ca.distance.truthy = true) (hv : ca.velocity.truthy = true) :
    ca.serialize.map (List.lookup "distance_au") = .ok (some (.float ca.distance)) ∧
    ca.serialize.map (List.lookup "velocity_km_s") = .ok (some (.float ca.velocity)) ∧
    ca.serialize.map (List.lookup "datetime_utc") = .ok (some (.str (strftimeYmdHM t))) ∧
    isTimestampPattern (strftimeYmdHM t) = true := by
  refine ⟨?_, ?_, ?_, strftimeYmdHM_matches t⟩ <;>
    simp [CloseApproach.serialize, h, pyOrNanF, hd, hv, Except.map, List.lookup]

theorem claim_C1_witness :
    (CloseApproach.serialize
      { _designation := "433", time := some ⟨1900, 1, 1, 0, 11, by decide⟩,
        distance := .val 921 10000, velocity := .val 1675 100, neo := none }).map
      (List.lookup "distance_au") = .ok (some (.float (.val 921 10000))) ∧
    (CloseApproach.serialize
      { _designation := "433", time := some ⟨1900, 1, 1, 0, 11, by decide⟩,
        distance := .val 921 10000, velocity := .val 1675 100, neo := none }).map
      (List.lookup "velocity_km_s") = .ok (some (.float (.val 1675 100))) ∧
    (CloseApproach.serialize
      { _designation := "433", time := some ⟨1900, 1, 1, 0, 11, by decide⟩,
        distance := .val 921 10000, velocity := .val 1675 100, neo := none }).map
      (List.lookup "datetime_utc")
      = .ok (some (.str (strftimeYmdHM ⟨1900, 1, 1, 0, 11, by decide⟩))) ∧
    isTimestampPattern (strftimeYmdHM ⟨1900, 1, 1, 0, 11, by decide⟩) = true :=
  claim_C1
    { _designation := "433", time := some ⟨1900, 1, 1, 0, 11, by decide⟩,
      distance := .val 921 10000, velocity := .val 1675 100, neo := none }
    ⟨1900, 1, 1, 0, 11, by decide⟩ rfl rfl rfl

/-- Counterexample to C2 as stated: the serialization of a linked
CloseApproach contains no flattened NEO fields — looking up `designation`
in the record yields nothing, and the record's keys are exactly the three
approach fields. -/
theorem claim_C2_counterexample :
    (CloseApproach.serialize
      { _designation := "433", time := some ⟨2020, 1, 1, 0, 0, by decide⟩,
        distance := .val 1 1, velocity := .val 1 1,
        neo := some { designation := some "433",
                      name := some "Eros",
                      diameter := .val 1684 100,
                      hazardous := some false } }).map
      (List.lookup "designation") = .ok none ∧
    (CloseApproach.serialize
      { _designation := "433", time := some ⟨2020, 1, 1, 0, 0, by decide⟩,
        distance := .val 1 1, velocity := .val 1 1,
        neo := some { designation := some "433",
                      name := some "Eros",
                      diameter := .val 1684 100,
                      hazardous := some false } }).map
      (List.map Prod.fst) = .ok ["datetime_utc", "distance_au", "velocity_km_s"] :=
  ⟨rfl, rfl⟩

/-- C2 (amended): the serialization of a CloseApproach with a present time
emits exactly the timestamp, distance and velocity fields; the flattened
fields of the linked NEO are not included, and the result is independent of
the `neo` reference. -/
theorem claim_C2 (ca : CloseApproach) (t : Datetime) (h : ca.time = some t) :
    ca.serialize.map (List.map Prod.fst)
      = .ok ["datetime_utc", "distance_au", "velocity_km_s"] ∧
    (∀ x, CloseApproach.serialize { ca with neo := x } = ca.serialize) :=
  ⟨by simp [CloseApproach.serialize, h, Except.map], fun x => rfl⟩

theorem claim_C2_witness :
    (CloseApproach.serialize
      { _designation := "433", time := some ⟨1900, 1, 1, 0, 11, by decide⟩,
        distance := .val 921 10000, velocity := .val 1675 100,
        neo := none }).map (List.map Prod.fst)
      = .ok ["datetime_utc", "distance_au", "velocity_km_s"] :=
  (claim_C2
    { _designation := "433", time := some ⟨1900, 1, 1, 0, 11, by decide⟩,
      distance := .val 921 10000, velocity := .val 1675 100, neo := none }
    ⟨1900, 1, 1, 0, 11, by decide⟩ rfl).1

/-- Counterexample to C3 as stated: a NEO with a known diameter of 0.0
serializes its diameter field as NaN, not as 0.0 (the code guards the value
with a Python `or float('nan')`). -/
theorem claim_C3_counterexample :
    List.lookup "diameter_km" (NeoData.serialize
      { designation := some "2010 XY", name := none, diameter := .val 0 1,
        hazardous := some false }) = some (.float .nan) ∧
    PFloat.nan ≠ PFloat.val 0 1 :=
  ⟨rfl, by decide⟩

/-- C3 (amended): NEO serialization emits the designation (or the empty
string if absent), the name (or the empty string), the hazardous flag as
stored, and the diameter as the stored numeric value when it is nonzero —
but a diameter of 0.0 is, like the unknown-diameter NaN sentinel, emitted
as NaN. -/
theorem claim_C3 (n : NeoData) :
    List.lookup "designation" n.serialize = some (.str (n.designation.getD "")) ∧
    List.lookup "name" n.serialize = some (.str (n.name.getD "")) ∧
    (n.diameter = .nan → List.lookup "diameter_km" n.serialize = some (.float .nan)) ∧
    (∀ den, n.diameter = .val 0 den →
      List.lookup "diameter_km" n.serialize = some (.float .nan)) ∧
    (∀ num den, num ≠ 0 → n.diameter = .val num den →
      List.lookup "diameter_km" n.serialize = some (.float (.val num den))) ∧
    List.lookup "potentially_hazardous" n.serialize = some (pyObj n.hazardous) := by
  refine ⟨?_, ?_, ?_, ?_, ?_, ?_⟩
  · cases hn : n.designation <;> simp [NeoData.serialize, pyOrEmpty, hn, List.lookup]
  · cases hn : n.name <;> simp [NeoData.serialize, pyOrEmpty, hn, List.lookup]
  · intro hdia
    simp [NeoData.serialize, pyOrNanF, hdia, PFloat.truthy, List.lookup]
  · intro den hdia
    simp [NeoData.serialize, pyOrNanF, hdia, PFloat.truthy, List.lookup]
  · intro num den hnum hdia
    simp [NeoData.serialize, pyOrNanF, hdia, PFloat.truthy, hnum, List.lookup]
  · simp [NeoData.serialize, List.lookup]

theorem claim_C3_witness :
    List.lookup "diameter_km" (NeoData.serialize
      { designation := some "433", name := some "Eros",
        diameter := .val 1684 100, hazardous := some false })
      = some (.float (.val 1684 100)) ∧
    List.lookup "designation" (NeoData.serialize
      { designation := some "433", name := some "Eros",
        diameter := .val 1684 100, hazardous := some false })
      = some (.str "433") :=
  ⟨(claim_C3 _).2.2.2.2.1 1684 100 (by decide) rfl,
   (claim_C3 { designation := some "433", name := some "Eros",
               diameter := .val 1684 100, hazardous := some false }).1⟩

/-- Counterexample to C4 as stated: for an approach with a present time,
the `time_str` display property does not match the bare
"YYYY-MM-DD HH:MM" pattern (it carries a `Time ` prefix and, when linked,
a NEO suffix). -/
theorem claim_C4_counterexample :
    isTimestampPattern (CloseApproach.time_str
      { _designation := "433", time := some ⟨2020, 1, 1, 0, 0, by decide⟩,
        distance := .val 1 1, velocity := .val 1 1, neo := none }) = false :=
  rfl

/-- C4 (amended): the serialized record's datetime field is always exactly
the "YYYY-MM-DD HH:MM" string (24-hour, zero-padded, no seconds, no
timezone suffix); the `time_str` display property instead embeds that
formatted timestamp, prefixing it with `Time ` and appending the linked
NEO's name and designation when a NEO reference is set. -/
theorem claim_C4 (ca : CloseApproach) (t : Datetime) (h : ca.time = some t) :
    ca.serialize.map (List.lookup "datetime_utc")
      = .ok (some (.str (strftimeYmdHM t))) ∧
    isTimestampPattern (strftimeYmdHM t) = true ∧
    isTimestampPattern (datetime_to_str t) = true ∧
    ca.time_str = "Time " ++ datetime_to_str t ++
      (match ca.neo with
       | none => ""
       | some n => "Name " ++ pyStrOfOpt n.name ++ " Designation " ++
           pyStrOfOpt n.designation) := by
  refine ⟨?_, strftimeYmdHM_matches t, strftimeYmdHM_matches t, ?_⟩
  · simp [CloseApproach.serialize, h, Except.map, List.lookup]
  · unfold CloseApproach.time_str
    rw [h]
    cases ca.neo with
    | none => simp
    | some n => simp [String.append_assoc]

theorem claim_C4_witness :
    (CloseApproach.serialize
      { _designation := "433", time := some ⟨1900, 1, 1, 0, 11, by decide⟩,
        distance := .val 1 1, velocity := .val 1 1, neo := none }).map
      (List.lookup "datetime_utc")
      = .ok (some (.str (strftimeYmdHM ⟨1900, 1, 1, 0, 11, by decide⟩))) ∧
    isTimestampPattern (strftimeYmdHM ⟨1900, 1, 1, 0, 11, by decide⟩) = true ∧
    isTimestampPattern (datetime_to_str ⟨1900, 1, 1, 0, 11, by decide⟩) = true ∧
    CloseApproach.time_str
      { _designation := "433", time := some ⟨1900, 1, 1, 0, 11, by decide⟩,
        distance := .val 1 1, velocity := .val 1 1, neo := none }
      = "Time " ++ datetime_to_str ⟨1900, 1, 1, 0, 11, by decide⟩ ++ "" :=
  claim_C4
    { _designation := "433", time := some ⟨1900, 1, 1, 0, 11, by decide⟩,
      distance := .val 1 1, velocity := .val 1 1, neo := none }
    ⟨1900, 1, 1, 0, 11, by decide⟩ rfl
